import Mathlib

/-!
# Verification of the redismodule-rs cluster-messaging and command-filter adapters

Shallow embedding of `src/context/cluster_message.rs` and
`src/context/command_filter.rs`. Host-side behaviour that the Rust code only
observes through return values (a status code, a filter pointer, whether a
mutex lock was acquired) is passed in as an explicit parameter; the process-wide
`HashMap` registries are modelled as association lists with map semantics;
callbacks are modelled by opaque `Nat` identifiers; raw pointers by `Nat`
with `0` playing the role of the null pointer.
-/

namespace RedisModule

/-! ## Association-list model of `HashMap<Nat-like key, callback>` -/

/-- Lookup in the registry model; mirrors `HashMap::get`. -/
def lookupAL : List (Nat × Nat) → Nat → Option Nat
  | [], _ => none
  | (k, v) :: rest, key => if k = key then some v else lookupAL rest key

/-- Insertion that replaces an existing binding; mirrors `HashMap::insert`. -/
def insertAL : List (Nat × Nat) → Nat → Nat → List (Nat × Nat)
  | [], k, v => [(k, v)]
  | (k', v') :: rest, k, v =>
      if k' = k then (k, v) :: rest else (k', v') :: insertAL rest k v

/-- Removal of a binding; mirrors `HashMap::remove`. -/
def eraseAL : List (Nat × Nat) → Nat → List (Nat × Nat)
  | [], _ => []
  | (k', v') :: rest, k =>
      if k' = k then eraseAL rest k else (k', v') :: eraseAL rest k

/-- The values of the registry in iteration order; mirrors `HashMap::values`. -/
def valuesAL (m : List (Nat × Nat)) : List Nat :=
  m.map (fun p => p.2)

theorem lookupAL_insertAL_self (t : List (Nat × Nat)) (k v : Nat) :
    lookupAL (insertAL t k v) k = some v := by
  induction t with
  | nil => simp [insertAL, lookupAL]
  | cons hd tl ih =>
      obtain ⟨k', v'⟩ := hd
      by_cases h : k' = k
      · simp [insertAL, h, lookupAL]
      · simp [insertAL, h, lookupAL, ih]

theorem lookupAL_insertAL_ne (t : List (Nat × Nat)) (k v key : Nat)
    (h : key ≠ k) : lookupAL (insertAL t k v) key = lookupAL t key := by
  induction t with
  | nil => simp [insertAL, lookupAL, Ne.symm h]
  | cons hd tl ih =>
      obtain ⟨k', v'⟩ := hd
      by_cases hk : k' = k
      · subst hk
        simp [insertAL, lookupAL, Ne.symm h]
      · by_cases hkey : k' = key <;> simp [insertAL, hk, lookupAL, hkey, h, ih]

theorem lookupAL_eraseAL_self (t : List (Nat × Nat)) (k : Nat) :
    lookupAL (eraseAL t k) k = none := by
  induction t with
  | nil => simp [eraseAL, lookupAL]
  | cons hd tl ih =>
      obtain ⟨k', v'⟩ := hd
      by_cases h : k' = k <;> simp [eraseAL, h, lookupAL, ih]

theorem lookupAL_eraseAL_ne (t : List (Nat × Nat)) (k key : Nat)
    (h : key ≠ k) : lookupAL (eraseAL t k) key = lookupAL t key := by
  induction t with
  | nil => simp [eraseAL, lookupAL]
  | cons hd tl ih =>
      obtain ⟨k', v'⟩ := hd
      by_cases hk : k' = k
      · subst hk
        simp [eraseAL, lookupAL, Ne.symm h, ih]
      · by_cases hkey : k' = key <;> simp [eraseAL, hk, lookupAL, hkey, h, ih]

theorem lookupAL_mem_values (t : List (Nat × Nat)) (k cb : Nat)
    (h : lookupAL t k = some cb) : cb ∈ valuesAL t := by
  induction t with
  | nil => simp [lookupAL] at h
  | cons hd tl ih =>
      obtain ⟨k', v'⟩ := hd
      by_cases hk : k' = k
      · simp [lookupAL, hk] at h
        simp [valuesAL, h]
      · simp [lookupAL, hk] at h
        simp only [valuesAL, List.map_cons, List.mem_cons]
        right
        simpa [valuesAL] using ih h

/-! ## Cluster-messaging adapter (`src/context/cluster_message.rs`)

`ClusterMessageCallback` values are opaque `Nat` identifiers. The global
`CLUSTER_MESSAGE_CALLBACKS` registry is a `List (Nat × Nat)` mapping the
message type to the callback identifier. Whether `Mutex::lock` succeeds
(it fails only when poisoned) is the `lockOk : Bool` parameter. -/

/-- Modelled from the spec: the host API success status `REDISMODULE_OK`
(the constant itself lives in the crate's `raw` module, outside the two
adapter files); `send_cluster_message` compares the host's return value
against it, success being `0`. -/
def REDISMODULE_OK : Int := 0

/-- `register_callback` (cluster_message.rs lines 123-129): lock the global
registry, insert `message_type ↦ callback` (replacing any previous binding),
and return `Ok`; if the lock cannot be acquired, return the static error
string without touching the table. -/
def register_callback (table : List (Nat × Nat)) (message_type cb : Nat)
    (lockOk : Bool) : Except String (List (Nat × Nat)) :=
  if lockOk then Except.ok (insertAL table message_type cb)
  else Except.error "Failed to acquire lock on cluster message callbacks"

/-- `Context::register_cluster_message_receiver` (lines 42-59): first store
the callback via `register_callback` (propagating its only possible error),
then call the host's `RedisModule_RegisterClusterMessageReceiver`, which
returns nothing, and return `Ok(())`. Result: the registry after the call and
the returned status. -/
def register_cluster_message_receiver (table : List (Nat × Nat))
    (message_type cb : Nat) (lockOk : Bool) :
    List (Nat × Nat) × Except String Unit :=
  match register_callback table message_type cb lockOk with
  | Except.ok t => (t, Except.ok ())
  | Except.error e => (table, Except.error e)

/-- Whether the optional target node id (as its byte string) contains an
interior NUL byte, the one condition under which `CString::new` fails in
`send_cluster_message`. -/
def targetHasNul : Option (List Nat) → Bool
  | none => false
  | some id => id.contains 0

/-- `Context::send_cluster_message` (lines 82-113): a `Some` target id is
converted to a C string, failing with a static error (before any host call)
when it contains a NUL byte; otherwise the host is called and the result is
`Ok(())` exactly when the host returned `REDISMODULE_OK`. The second
component records whether the host entry point was invoked. -/
def send_cluster_message (target : Option (List Nat)) (_message_type : Nat)
    (_message : List Nat) (hostResult : Int) : Except String Unit × Bool :=
  match target with
  | some id =>
      if id.contains 0 then
        (Except.error "Invalid target_id: contains null byte", false)
      else if hostResult = REDISMODULE_OK then (Except.ok (), true)
      else (Except.error "Failed to send cluster message", true)
  | none =>
      if hostResult = REDISMODULE_OK then (Except.ok (), true)
      else (Except.error "Failed to send cluster message", true)

/-- The sender-id conversion in `raw_cluster_message_callback` (lines
141-149): a null pointer becomes `""`; otherwise `CStr::to_str` either
decodes the bytes (`decoded = some s`) or fails (`decoded = none`), and
`unwrap_or("")` turns the failure into `""`. -/
def senderToStr (senderNull : Bool) (decoded : Option String) : String :=
  if senderNull then "" else decoded.getD ""

/-- The payload conversion in `raw_cluster_message_callback` (lines 152-156):
a null pointer or a zero length becomes the empty slice, otherwise the `len`
bytes at the pointer (`mem` models the pointed-to buffer). -/
def payloadToSlice (payloadNull : Bool) (len : Nat) (mem : List Nat) :
    List Nat :=
  if payloadNull ∨ len = 0 then [] else mem.take len

/-- `raw_cluster_message_callback` (lines 131-174): convert sender id and
payload, lock the registry, and invoke the callback registered for
`message_type` if there is one, logging a debug line otherwise; a poisoned
lock only logs a warning. Result: the registry after the call, the list of
user-callback invocations performed (callback id, sender string, message
type, payload), and the log lines emitted. -/
def raw_cluster_message_callback (table : List (Nat × Nat)) (lockOk : Bool)
    (senderNull : Bool) (decoded : Option String) (message_type : Nat)
    (payloadNull : Bool) (len : Nat) (mem : List Nat) :
    List (Nat × Nat) × List (Nat × String × Nat × List Nat) × List String :=
  let sender := senderToStr senderNull decoded
  let payload := payloadToSlice payloadNull len mem
  if lockOk then
    match lookupAL table message_type with
    | some cb => (table, [(cb, sender, message_type, payload)], [])
    | none =>
        (table, [],
          ["No callback registered for cluster message type " ++
            toString message_type])
  else
    (table, [], ["Failed to acquire lock on cluster message callbacks"])

/-! ## Command-filter adapter (`src/context/command_filter.rs`)

`CommandFilterCallback` values are opaque `Nat` identifiers; the global
`FILTER_REGISTRY` maps the filter pointer (as `usize`, modelled `Nat`)
to the callback. Raw pointers are `Nat`, `0` being null. Host status
returns are a `Bool` (`true` = `raw::Status::Ok`). -/

/-- `CommandFilterContext::arg_get` (lines 41-56): the host returns a raw
string pointer for the position; a null pointer becomes `None`, anything
else is wrapped and returned as `Some`. -/
def arg_get (hostPtr : Nat) : Option Nat :=
  if hostPtr = 0 then none else some hostPtr

/-- `CommandFilterContext::arg_insert` (lines 68-79): `Ok(())` when the host
returned its success status, a static error string otherwise. -/
def arg_insert (_pos : Int) (_arg : Nat) (hostOk : Bool) :
    Except String Unit :=
  if hostOk then Except.ok () else Except.error "Failed to insert argument"

/-- `CommandFilterContext::arg_replace` (lines 91-102): `Ok(())` when the
host returned its success status, a static error string otherwise. -/
def arg_replace (_pos : Int) (_arg : Nat) (hostOk : Bool) :
    Except String Unit :=
  if hostOk then Except.ok () else Except.error "Failed to replace argument"

/-- `CommandFilterContext::arg_delete` (lines 113-122): `Ok(())` when the
host returned its success status, a static error string otherwise. -/
def arg_delete (_pos : Int) (hostOk : Bool) : Except String Unit :=
  if hostOk then Except.ok () else Except.error "Failed to delete argument"

/-- `Context::register_command_filter` (lines 177-195): call the host's
`RedisModule_RegisterCommandFilter`, which returns the filter pointer
(`filterPtr`), store `filterPtr ↦ callback` in the registry, and return the
pointer. Result: the registry after the call and the returned pointer. -/
def register_command_filter (registry : List (Nat × Nat))
    (cb filterPtr : Nat) : List (Nat × Nat) × Nat :=
  (insertAL registry filterPtr cb, filterPtr)

/-- `Context::unregister_command_filter` (lines 206-223): call the host's
`RedisModule_UnregisterCommandFilter`; on success remove the handle's entry
from the registry and return `Ok(())`, on failure return the static error
string leaving the registry untouched. -/
def unregister_command_filter (registry : List (Nat × Nat)) (handle : Nat)
    (hostOk : Bool) : List (Nat × Nat) × Except String Unit :=
  if hostOk then (eraseAL registry handle, Except.ok ())
  else
    (registry,
      Except.error "Failed to unregister command filter, filter may not exist")

/-- `raw_filter_callback` (lines 226-236): lock the registry and call every
callback stored in it, in iteration order — the hook receives only the
filter context, not the filter handle, so it cannot select one entry.
Result: the list of callbacks invoked. -/
def raw_filter_callback (registry : List (Nat × Nat)) : List Nat :=
  valuesAL registry

/-! ## Joint state of the lookup tables and the host-side registrations

For the table/host-registration invariant, the two registries are paired
with the host's own state: the set of message types with an active cluster
receiver registration and the set of filter handles the host currently
holds. Each adapter operation is one step. -/

/-- The two lookup tables together with the host-side registration sets. -/
structure AdapterState where
  cmTable : List (Nat × Nat)
  cmHost : List Nat
  cfTable : List (Nat × Nat)
  cfHost : List Nat
deriving DecidableEq, Repr

/-- The state at module load: both registries empty, no host registrations. -/
def initialState : AdapterState := ⟨[], [], [], []⟩

/-- One adapter operation, with the host-controlled outcomes it observes:
whether the registry lock was acquired, the filter pointer the host returns,
and the status the host reports for unregistration. -/
inductive AdapterOp where
  | regCluster (message_type cb : Nat) (lockOk : Bool)
  | regFilter (cb handle : Nat)
  | unregFilter (handle : Nat) (hostOk : Bool)
deriving DecidableEq, Repr

/-- Effect of one complete adapter operation on tables and host state.
`regCluster` follows `register_cluster_message_receiver`: on lock failure
nothing happens; otherwise the table gains the entry and the host call (which
cannot fail) makes the registration active. `regFilter` follows
`register_command_filter`: the host registers the filter and returns its
pointer, then the entry is stored. `unregFilter` follows
`unregister_command_filter`: only when the host reports success does the host
drop the registration and the adapter its entry. -/
def applyOp (s : AdapterState) : AdapterOp → AdapterState
  | AdapterOp.regCluster mt cb lockOk =>
      match register_callback s.cmTable mt cb lockOk with
      | Except.ok t => { s with cmTable := t, cmHost := mt :: s.cmHost }
      | Except.error _ => s
  | AdapterOp.regFilter cb handle =>
      { s with
          cfTable := (register_command_filter s.cfTable cb handle).1,
          cfHost := handle :: s.cfHost }
  | AdapterOp.unregFilter handle hostOk =>
      if hostOk then
        { s with
            cfTable := (unregister_command_filter s.cfTable handle true).1,
            cfHost := s.cfHost.filter (fun h => h ≠ handle) }
      else s

/-- A lookup-table entry exists exactly for the active host registrations,
in both adapters. -/
def tableHostInv (s : AdapterState) : Prop :=
  (∀ mt, (lookupAL s.cmTable mt).isSome ↔ mt ∈ s.cmHost) ∧
  (∀ h, (lookupAL s.cfTable h).isSome ↔ h ∈ s.cfHost)

/-- The intermediate state inside `register_cluster_message_receiver`, after
`register_callback` has inserted the entry (line 48) but before the host's
`RedisModule_RegisterClusterMessageReceiver` has been called (lines 50-56):
the table already holds the entry, the host registration does not exist yet. -/
def regClusterIntermediate (s : AdapterState) (message_type cb : Nat) :
    AdapterState :=
  { s with cmTable := insertAL s.cmTable message_type cb }

theorem tableHostInv_applyOp (s : AdapterState) (op : AdapterOp)
    (hs : tableHostInv s) : tableHostInv (applyOp s op) := by
  obtain ⟨hcm, hcf⟩ := hs
  cases op with
  | regCluster mt cb lockOk =>
      cases lockOk with
      | false => exact ⟨hcm, hcf⟩
      | true =>
          refine ⟨?_, hcf⟩
          intro mt'
          by_cases h : mt' = mt
          · subst h
            simp [applyOp, register_callback, lookupAL_insertAL_self]
          · simp [applyOp, register_callback, lookupAL_insertAL_ne _ _ _ _ h,
              hcm mt', h]
  | regFilter cb handle =>
      refine ⟨hcm, ?_⟩
      intro h'
      by_cases h : h' = handle
      · subst h
        simp [applyOp, register_command_filter, lookupAL_insertAL_self]
      · simp [applyOp, register_command_filter,
          lookupAL_insertAL_ne _ _ _ _ h, hcf h', h]
  | unregFilter handle hostOk =>
      cases hostOk with
      | false => exact ⟨hcm, hcf⟩
      | true =>
          refine ⟨hcm, ?_⟩
          intro h'
          by_cases h : h' = handle
          · subst h
            simp [applyOp, unregister_command_filter, lookupAL_eraseAL_self,
              List.mem_filter]
          · simp [applyOp, unregister_command_filter,
              lookupAL_eraseAL_ne _ _ _ h, hcf h', List.mem_filter, h]

theorem tableHostInv_foldl (ops : List AdapterOp) (s : AdapterState)
    (hs : tableHostInv s) : tableHostInv (ops.foldl applyOp s) := by
  induction ops generalizing s with
  | nil => exact hs
  | cons op rest ih =>
      exact ih (applyOp s op) (tableHostInv_applyOp s op hs)

theorem tableHostInv_initialState : tableHostInv initialState := by
  constructor <;> intro k <;> simp [initialState, lookupAL]

/-! ## Lock discipline (events emitted by each adapter function)

Each function that touches a global registry is abstracted to the sequence
of lock/table events it performs, in source order; `lockedOk` checks that
every table access happens while the mutex is held. -/

/-- Events at the registry: acquiring/releasing the mutex, reading or
writing the guarded table, calling a host entry point, invoking a user
callback, emitting a log line. -/
inductive LockEv where
  | acq | rel | readTbl | writeTbl | host | invoke | log
deriving DecidableEq, Repr

/-- `lockedOk tr d = true` when, starting at lock depth `d`, every table
access in `tr` happens at positive lock depth. -/
def lockedOk : List LockEv → Nat → Bool
  | [], _ => true
  | LockEv.acq :: r, d => lockedOk r (d + 1)
  | LockEv.rel :: r, d => lockedOk r (d - 1)
  | LockEv.readTbl :: r, d => decide (0 < d) && lockedOk r d
  | LockEv.writeTbl :: r, d => decide (0 < d) && lockedOk r d
  | LockEv.host :: r, d => lockedOk r d
  | LockEv.invoke :: r, d => lockedOk r d
  | LockEv.log :: r, d => lockedOk r d

/-- Events of `register_callback` (cluster_message.rs lines 123-129): on a
successful lock, write the table and drop the guard; a failed lock touches
nothing. -/
def register_callback_events (lockOk : Bool) : List LockEv :=
  if lockOk then [LockEv.acq, LockEv.writeTbl, LockEv.rel] else []

/-- Events of `register_cluster_message_receiver` (lines 42-59): the
`register_callback` events, then — only when that succeeded — the host
registration call. -/
def register_cluster_message_receiver_events (lockOk : Bool) : List LockEv :=
  register_callback_events lockOk ++ (if lockOk then [LockEv.host] else [])

/-- Events of `raw_cluster_message_callback` (lines 159-173): lock, read the
table, invoke the callback or log the debug line while still holding the
guard, release; a poisoned lock only logs a warning. -/
def raw_cluster_message_callback_events (lockOk found : Bool) : List LockEv :=
  if lockOk then
    [LockEv.acq, LockEv.readTbl] ++
      (if found then [LockEv.invoke] else [LockEv.log]) ++ [LockEv.rel]
  else [LockEv.log]

/-- Events of `register_command_filter` (command_filter.rs lines 177-195):
host call first, then lock, write, release. -/
def register_command_filter_events : List LockEv :=
  [LockEv.host, LockEv.acq, LockEv.writeTbl, LockEv.rel]

/-- Events of `unregister_command_filter` (lines 206-223): host call, then —
only on success — lock, remove the entry, release. -/
def unregister_command_filter_events (hostOk : Bool) : List LockEv :=
  [LockEv.host] ++
    (if hostOk then [LockEv.acq, LockEv.writeTbl, LockEv.rel] else [])

/-- Events of `raw_filter_callback` (lines 226-236): lock, read the table,
invoke all `n` stored callbacks while holding the guard, release. -/
def raw_filter_callback_events (n : Nat) : List LockEv :=
  [LockEv.acq, LockEv.readTbl] ++ List.replicate n LockEv.invoke ++
    [LockEv.rel]

theorem lockedOk_replicate_invoke (n : Nat) (r : List LockEv) (d : Nat) :
    lockedOk (List.replicate n LockEv.invoke ++ r) d = lockedOk r d := by
  induction n with
  | zero => simp
  | succ m ih => simpa [List.replicate_succ, lockedOk] using ih

/-- The registry after `register_command_filter` has been called twice from
the empty registry: callback `1` registered for filter pointer `100`,
callback `2` for filter pointer `200`. -/
def twoFilterRegistry : List (Nat × Nat) :=
  (register_command_filter (register_command_filter [] 1 100).1 2 200).1

/-- On `true`, `(register_cluster_message_receiver t mt cb true).1` is
`insertAL t mt cb`. -/
theorem register_cluster_receiver_table_ok (table : List (Nat × Nat))
    (mt cb : Nat) :
    (register_cluster_message_receiver table mt cb true).1 =
      insertAL table mt cb := by
  simp [register_cluster_message_receiver, register_callback]

/-! ## Claims -/

/-- Claim C1, counterexample: with callbacks `1` and `2` registered for the
distinct filters `100` and `200`, a single host invocation of the
command-filter hook invokes both callbacks — including the one registered
for the other filter — rather than exactly the one callback of the invoked
filter (the raw hook does not even receive the filter handle, so the result
is the same whichever filter fired). -/
theorem raw_filter_hook_not_single_counterexample :
    lookupAL twoFilterRegistry 100 = some 1 ∧
    lookupAL twoFilterRegistry 200 = some 2 ∧
    raw_filter_callback twoFilterRegistry = [1, 2] ∧
    raw_filter_callback twoFilterRegistry ≠ [1] ∧
    raw_filter_callback twoFilterRegistry ≠ [2] := by
  decide

/-- Claim C1 (amended): on every host invocation of the command-filter hook
the adapter invokes every callback stored in the process-wide filter
registry — in particular the callback registered for each filter handle is
invoked — because the hook receives only the filter context and cannot
discriminate between filters; the handle-keyed table serves only
unregistration. -/
theorem raw_filter_hook_invokes_all_registered (registry : List (Nat × Nat))
    (handle cb : Nat) (h : lookupAL registry handle = some cb) :
    cb ∈ raw_filter_callback registry :=
  lookupAL_mem_values registry handle cb h

/-- Witness for the amended claim C1 at the concrete two-filter registry. -/
theorem raw_filter_hook_invokes_all_registered_witness :
    lookupAL twoFilterRegistry 200 = some 2 ∧
    2 ∈ raw_filter_callback twoFilterRegistry :=
  ⟨by decide,
    raw_filter_hook_invokes_all_registered twoFilterRegistry 200 2 (by decide)⟩

/-- Claim C2, counterexample: inside `register_cluster_message_receiver` the
table entry is inserted (line 48) before the host registration call (lines
50-56), so at that intermediate point the entry for message type `7` is
present while no host-side registration for `7` is active — contradicting
"the entry is not present before the host registration call succeeds". -/
theorem cluster_entry_before_host_call_counterexample :
    (lookupAL (regClusterIntermediate initialState 7 3).cmTable 7).isSome
        = true ∧
    7 ∉ (regClusterIntermediate initialState 7 3).cmHost := by
  decide

/-- Claim C2 (amended): after every complete register/unregister adapter
operation — for any sequence of such operations from the initial state, with
any host-reported outcomes — an entry is present in a lookup table iff the
corresponding host-side registration is active; within
`register_cluster_message_receiver`, however, the entry is inserted before
the host registration call (which returns no status) rather than after it. -/
theorem tableHostInv_after_operations (ops : List AdapterOp) :
    tableHostInv (ops.foldl applyOp initialState) :=
  tableHostInv_foldl ops initialState tableHostInv_initialState

/-- Claim C3: `send_cluster_message` returns `Ok(())` exactly when the host
returned `REDISMODULE_OK` and the optional target id has no interior NUL
byte; a NUL-containing target id yields the static error before any host
call; any other failure is the single static host-failure error (after the
host was called). -/
theorem send_cluster_message_spec (target : Option (List Nat))
    (mt : Nat) (msg : List Nat) (hostResult : Int) :
    ((send_cluster_message target mt msg hostResult).1 = Except.ok () ↔
      (hostResult = REDISMODULE_OK ∧ targetHasNul target = false)) ∧
    (targetHasNul target = true →
      send_cluster_message target mt msg hostResult =
        (Except.error "Invalid target_id: contains null byte", false)) ∧
    (targetHasNul target = false → hostResult ≠ REDISMODULE_OK →
      send_cluster_message target mt msg hostResult =
        (Except.error "Failed to send cluster message", true)) := by
  cases target with
  | none =>
      by_cases hr : hostResult = REDISMODULE_OK <;>
        simp [send_cluster_message, targetHasNul, hr]
  | some id =>
      by_cases hn : (0 : Nat) ∈ id <;>
        by_cases hr : hostResult = REDISMODULE_OK <;>
          simp [send_cluster_message, targetHasNul, hn, hr]

/-- Witness for claim C3: a target id with an interior NUL byte makes
`send_cluster_message` fail without calling the host, even though the host
status would have been success. -/
theorem send_cluster_message_spec_witness :
    targetHasNul (some [65, 0, 66]) = true ∧
    send_cluster_message (some [65, 0, 66]) 5 [1, 2] 0 =
      (Except.error "Invalid target_id: contains null byte", false) :=
  ⟨by decide, (send_cluster_message_spec (some [65, 0, 66]) 5 [1, 2] 0).2.1
    (by decide)⟩

/-- Claim C4: `unregister_command_filter` is atomic on the filter registry:
on host success the handle's entry is removed (all other entries kept) and
`Ok(())` returned; on host failure the registry is unchanged and the static
error string is returned. -/
theorem unregister_command_filter_atomic (registry : List (Nat × Nat))
    (handle k : Nat) :
    (unregister_command_filter registry handle true).2 = Except.ok () ∧
    lookupAL (unregister_command_filter registry handle true).1 handle
        = none ∧
    (k ≠ handle →
      lookupAL (unregister_command_filter registry handle true).1 k =
        lookupAL registry k) ∧
    (unregister_command_filter registry handle false).1 = registry ∧
    (unregister_command_filter registry handle false).2 =
      Except.error "Failed to unregister command filter, filter may not exist"
    := by
  refine ⟨?_, ?_, ?_, ?_, ?_⟩
  · simp [unregister_command_filter]
  · simp [unregister_command_filter, lookupAL_eraseAL_self]
  · intro hk
    simp [unregister_command_filter, lookupAL_eraseAL_ne _ _ _ hk]
  · simp [unregister_command_filter]
  · simp [unregister_command_filter]

/-- Witness for claim C4 at a concrete registry: removing handle `5` keeps
the entry for handle `3`. -/
theorem unregister_command_filter_atomic_witness :
    (3 : Nat) ≠ 5 ∧
    lookupAL (unregister_command_filter [(5, 9), (3, 4)] 5 true).1 3 =
      lookupAL [(5, 9), (3, 4)] 3 :=
  ⟨by decide,
    (unregister_command_filter_atomic [(5, 9), (3, 4)] 5 3).2.2.1 (by decide)⟩

/-- Claim C5: each of `arg_insert`, `arg_replace`, `arg_delete` returns
`Ok(())` iff the host accessor returned its success status, and otherwise
the corresponding single static error string; no other failure exists. -/
theorem arg_mutators_status_spec (pos : Int) (arg : Nat) (hostOk : Bool) :
    (arg_insert pos arg hostOk = Except.ok () ↔ hostOk = true) ∧
    (arg_replace pos arg hostOk = Except.ok () ↔ hostOk = true) ∧
    (arg_delete pos hostOk = Except.ok () ↔ hostOk = true) ∧
    arg_insert pos arg false = Except.error "Failed to insert argument" ∧
    arg_replace pos arg false = Except.error "Failed to replace argument" ∧
    arg_delete pos false = Except.error "Failed to delete argument" := by
  cases hostOk <;> simp [arg_insert, arg_replace, arg_delete]

/-- Claim C6: every host pointer is null-checked before conversion:
`arg_get` returns `None` exactly on the null pointer and `Some` otherwise;
in the cluster receiver a null or undecodable sender id becomes `""` and a
null payload pointer or zero length becomes the empty slice. -/
theorem ffi_null_guard_spec (p : Nat) (d : Option String) (s : String)
    (pn : Bool) (len : Nat) (mem : List Nat) :
    arg_get 0 = none ∧
    (p ≠ 0 → arg_get p = some p) ∧
    senderToStr true d = "" ∧
    senderToStr false none = "" ∧
    senderToStr false (some s) = s ∧
    payloadToSlice true len mem = [] ∧
    payloadToSlice pn 0 mem = [] := by
  refine ⟨?_, ?_, ?_, ?_, ?_, ?_, ?_⟩
  · simp [arg_get]
  · intro h
    simp [arg_get, h]
  · simp [senderToStr]
  · simp [senderToStr]
  · simp [senderToStr]
  · simp [payloadToSlice]
  · simp [payloadToSlice]

/-- Witness for claim C6: a non-null argument pointer is returned as
`Some`. -/
theorem ffi_null_guard_spec_witness :
    (3 : Nat) ≠ 0 ∧ arg_get 3 = some 3 :=
  ⟨by decide, (ffi_null_guard_spec 3 none "" true 0 []).2.1 (by decide)⟩

/-- Claim C7: in every adapter function touching a process-wide registry —
registration, unregistration and the two host-invoked raw callbacks — every
read or write of the registry happens while the mutual-exclusion lock is
held. -/
theorem registry_access_lock_discipline (lockOk found hostOk : Bool)
    (n : Nat) :
    lockedOk (register_callback_events lockOk) 0 = true ∧
    lockedOk (register_cluster_message_receiver_events lockOk) 0 = true ∧
    lockedOk (raw_cluster_message_callback_events lockOk found) 0 = true ∧
    lockedOk register_command_filter_events 0 = true ∧
    lockedOk (unregister_command_filter_events hostOk) 0 = true ∧
    lockedOk (raw_filter_callback_events n) 0 = true := by
  refine ⟨?_, ?_, ?_, ?_, ?_, ?_⟩
  · cases lockOk <;> simp [register_callback_events, lockedOk]
  · cases lockOk <;>
      simp [register_cluster_message_receiver_events,
        register_callback_events, lockedOk]
  · cases lockOk <;> cases found <;>
      simp [raw_cluster_message_callback_events, lockedOk]
  · simp [register_command_filter_events, lockedOk]
  · cases hostOk <;> simp [unregister_command_filter_events, lockedOk]
  · simp [raw_filter_callback_events, lockedOk, lockedOk_replicate_invoke]

/-- Claim C8: `register_cluster_message_receiver` returns `Ok(())` exactly
when the registry lock is acquired; the host registration entry point
returns no status (it is not a parameter of the model at all), so lock
failure is the only reportable error, with its static message. -/
theorem register_cluster_receiver_result_spec (table : List (Nat × Nat))
    (mt cb : Nat) (lockOk : Bool) :
    ((register_cluster_message_receiver table mt cb lockOk).2 = Except.ok ()
      ↔ lockOk = true) ∧
    register_cluster_message_receiver table mt cb false =
      (table,
        Except.error "Failed to acquire lock on cluster message callbacks")
    := by
  cases lockOk <;>
    simp [register_cluster_message_receiver, register_callback]

/-- Claim C9: registering a second cluster-message receiver for the same
message type replaces the previous callback — the table keeps exactly one
callback for the type — and the entry of every other message type is
unchanged. -/
theorem register_cluster_receiver_replaces (table : List (Nat × Nat))
    (mt cb1 cb2 k : Nat) :
    lookupAL (register_cluster_message_receiver
        (register_cluster_message_receiver table mt cb1 true).1
        mt cb2 true).1 mt = some cb2 ∧
    (k ≠ mt →
      lookupAL (register_cluster_message_receiver
          (register_cluster_message_receiver table mt cb1 true).1
          mt cb2 true).1 k = lookupAL table k) := by
  constructor
  · rw [register_cluster_receiver_table_ok, register_cluster_receiver_table_ok]
    exact lookupAL_insertAL_self _ _ _
  · intro hk
    rw [register_cluster_receiver_table_ok, register_cluster_receiver_table_ok,
      lookupAL_insertAL_ne _ _ _ _ hk, lookupAL_insertAL_ne _ _ _ _ hk]

/-- Witness for claim C9: re-registering type `7` leaves type `4`'s entry
untouched. -/
theorem register_cluster_receiver_replaces_witness :
    (4 : Nat) ≠ 7 ∧
    lookupAL (register_cluster_message_receiver
        (register_cluster_message_receiver [(4, 8)] 7 1 true).1
        7 2 true).1 4 = lookupAL [(4, 8)] 4 :=
  ⟨by decide,
    (register_cluster_receiver_replaces [(4, 8)] 7 1 2 4).2 (by decide)⟩

/-- Claim C10: an incoming cluster message whose type has no registered
callback invokes no user callback, leaves the registry unchanged and only
emits the debug log line; the raw receiver returns normally. -/
theorem raw_cluster_callback_unregistered_spec (table : List (Nat × Nat))
    (mt : Nat) (senderNull : Bool) (decoded : Option String)
    (payloadNull : Bool) (len : Nat) (mem : List Nat)
    (h : lookupAL table mt = none) :
    raw_cluster_message_callback table true senderNull decoded mt
        payloadNull len mem =
      (table, [],
        ["No callback registered for cluster message type " ++ toString mt])
    := by
  simp [raw_cluster_message_callback, h]

/-- Witness for claim C10 at message type `9` and the empty registry. -/
theorem raw_cluster_callback_unregistered_spec_witness :
    lookupAL [] 9 = none ∧
    raw_cluster_message_callback [] true true none 9 true 0 [] =
      ([], [], ["No callback registered for cluster message type " ++
        toString 9]) :=
  ⟨rfl, raw_cluster_callback_unregistered_spec [] 9 true none true 0 [] rfl⟩

end RedisModule
